import Mathlib

/-!
Shallow embedding of the connection-resilience and health-gated
strategy-scheduling core of `src/main.py` (an MT5 trading bot), together
with theorems settling the specification's claims about it.

Conventions of the embedding:
* `time.time()` values are modelled as natural numbers of seconds; every
  comparison `a - b < k` on them uses truncated subtraction, which agrees
  with the Python float comparison whenever `a ≥ b` and also when `a < b`
  (both sides of each guard evaluate the same way).
* Calls into the external MetaTrader5 terminal, `psutil`, the network
  probe and the unimplemented decision placeholders are modelled as
  per-call injected outcomes (`AttemptOutcome`, `SysInputs`,
  `FetchOutcome`, `decisionRaises`): the embedding is a function of the
  program state and of those external outcomes.
* A Python exception escaping an embedded call is an `Except.error`;
  a `try`/`except` block is a `match` on it.
* The shared singleton `MT5ConnectionManager` is threaded explicitly as
  a value of type `MT5ConnectionManager` wherever the source reads
  `self.mt5_manager`.
-/

namespace DiabloTrades

/-- Outcome of one real underlying connection attempt, i.e. of the
`mt5.initialize()` / `mt5.login(...)` pair inside
`MT5ConnectionManager.connect` (`src/main.py` lines 102-116). -/
inductive AttemptOutcome where
  /-- both calls return truthy: the attempt succeeds -/
  | success
  /-- `mt5.initialize()` returns falsy -/
  | initFail
  /-- `mt5.initialize()` returns truthy, `mt5.login(...)` returns falsy -/
  | loginFail
  /-- one of the underlying calls raises an exception -/
  | raises
deriving DecidableEq, Repr

/-- State of the singleton `MT5ConnectionManager` (`src/main.py`
lines 77-90): the fields set by `MT5ConnectionManager.initialize`. -/
structure MT5ConnectionManager where
  connected : Bool
  last_connection_attempt : Nat
  connection_interval : Nat
deriving DecidableEq, Repr

/-- The state `MT5ConnectionManager.initialize` (`src/main.py`
lines 87-90) produces: disconnected, epoch timestamp, 60-second nominal
interval field. -/
def MT5ConnectionManager.initState : MT5ConnectionManager :=
  { connected := false, last_connection_attempt := 0, connection_interval := 60 }

/-- Everything one call to `MT5ConnectionManager.connect` produces:
its return value, the updated manager state, whether a real underlying
attempt (initialize/login) was performed, and whether `mt5.shutdown()`
was called. -/
structure ConnectResult where
  ret : Bool
  st : MT5ConnectionManager
  attempted : Bool
  shutdownCalled : Bool
deriving DecidableEq, Repr

/-- `MT5ConnectionManager.connect` (`src/main.py` lines 92-118), called
at time `now` with the underlying attempt resolving to `o`.  The body
runs under `_connection_lock`; `if current_time - self.last_connection_attempt < 5`
returns the cached `self.connected` without attempting; otherwise
`self.last_connection_attempt = current_time` and the `try` block runs:
on success `connected = True; return True`; when initialize or login
return falsy, `connected = False` and `mt5.shutdown()` is called; when
the underlying call raises, the `except` clause sets `connected = False`
(no shutdown).  The final `return self.connected` yields `False` on every
failure path. -/
def MT5ConnectionManager.connect (m : MT5ConnectionManager) (now : Nat)
    (o : AttemptOutcome) : ConnectResult :=
  if now - m.last_connection_attempt < 5 then
    { ret := m.connected, st := m, attempted := false, shutdownCalled := false }
  else
    let m1 := { m with last_connection_attempt := now }
    match o with
    | .success =>
        { ret := true, st := { m1 with connected := true },
          attempted := true, shutdownCalled := false }
    | .initFail =>
        { ret := false, st := { m1 with connected := false },
          attempted := true, shutdownCalled := true }
    | .loginFail =>
        { ret := false, st := { m1 with connected := false },
          attempted := true, shutdownCalled := true }
    | .raises =>
        { ret := false, st := { m1 with connected := false },
          attempted := true, shutdownCalled := false }

/-- `MT5ConnectionManager.ensure_connection` (`src/main.py`
lines 120-123): short-circuits to `True` when `self.connected`, else
delegates to `connect`. -/
def MT5ConnectionManager.ensure_connection (m : MT5ConnectionManager)
    (now : Nat) (o : AttemptOutcome) : ConnectResult :=
  if m.connected then
    { ret := true, st := m, attempted := false, shutdownCalled := false }
  else
    m.connect now o

/-- `MT5ConnectionManager.reconnect` (`src/main.py` lines 125-127):
`self.connected = False` then `return self.connect()`. -/
def MT5ConnectionManager.reconnect (m : MT5ConnectionManager)
    (now : Nat) (o : AttemptOutcome) : ConnectResult :=
  MT5ConnectionManager.connect { m with connected := false } now o

/-- Run a sequence of `connect()` calls, each with its call time and the
outcome its underlying attempt would have; returns the final manager
state, the number of calls that performed a real underlying attempt, and
the list of returned booleans. -/
def runConnects (m : MT5ConnectionManager) :
    List (Nat × AttemptOutcome) → MT5ConnectionManager × Nat × List Bool
  | [] => (m, 0, [])
  | c :: cs =>
      let r := m.connect c.1 c.2
      let rest := runConnects r.st cs
      (rest.1, (if r.attempted then 1 else 0) + rest.2.1, r.ret :: rest.2.2)

/-! ### System monitor inputs and the health check -/

/-- One sampling of the external probes that
`TradingStrategy.health_check` consults: `psutil` CPU and memory
percentages (`SystemMonitor.get_system_status`, `src/main.py`
lines 134-154) and the network-latency probe
(`SystemMonitor.get_network_latency`, lines 157-164).  The latency probe
catches its own exceptions and returns `float('inf')`, modelled as
`none`. -/
structure SysInputs where
  cpu : Nat
  memory_percent : Nat
  latency : Option Nat
deriving DecidableEq, Repr

/-- The comparison `latency > 100` of `src/main.py` line 207, where a
failed probe yielded `float('inf')` (`none`), which exceeds any
threshold. -/
def latencyOver (l : Option Nat) (threshold : Nat) : Bool :=
  match l with
  | none => true
  | some v => threshold < v

/-- The pure tail of `TradingStrategy.health_check` (`src/main.py`
lines 188-211) after the `ensure_connection` call has produced
`connOk`: return `False` when not connected, when `cpu > 90`, when
`memory percent > 90`, or when `latency > 100`; otherwise `True`.
Each failing branch only logs — the reason is not part of the return
value, which is a bare boolean. -/
def health_check_pure (connOk : Bool) (sys : SysInputs) : Bool :=
  if !connOk then false
  else if 90 < sys.cpu then false
  else if 90 < sys.memory_percent then false
  else if latencyOver sys.latency 100 then false
  else true

/-- Which of the four guards of `TradingStrategy.health_check` causes it
to return `False` (the first one that fires, reflecting the source's
early returns), or `none` when all pass.  Instrumentation of the same
control flow as `health_check_pure`. -/
inductive HealthFail where
  | connection
  | cpu
  | memory
  | latency
deriving DecidableEq, Repr

/-- Instrumented control flow of `TradingStrategy.health_check`: the
guard at which it returns `False`, if any. -/
def health_check_failure (connOk : Bool) (sys : SysInputs) : Option HealthFail :=
  if !connOk then some .connection
  else if 90 < sys.cpu then some .cpu
  else if 90 < sys.memory_percent then some .memory
  else if latencyOver sys.latency 100 then some .latency
  else none

/-- `TradingStrategy.health_check` (`src/main.py` lines 188-211) with
the shared connection manager threaded through: first
`self.mt5_manager.ensure_connection()` (which may mutate the manager),
then the resource and latency guards. -/
def health_check (conn : MT5ConnectionManager) (now : Nat)
    (att : AttemptOutcome) (sys : SysInputs) : Bool × MT5ConnectionManager :=
  let r := conn.ensure_connection now att
  (health_check_pure r.ret sys, r.st)

/-- Modelled from the spec: the §4.2 HealthGate contract
`check() -> (ok: bool, reason: optional)` with reasons
`connection_unavailable`, `resource_exhausted` (CPU > 90% or
memory > 90%), `network_degraded` (latency > 100ms) — written from the
spec's words, to be compared with the source's `health_check`, whose
return is a bare boolean. -/
inductive HealthReason where
  | connection_unavailable
  | resource_exhausted
  | network_degraded
deriving DecidableEq, Repr

/-- Modelled from the spec: §4.2's `check()` returning the pair
`(ok, reason)`.  This follows the spec's words, not the source. -/
def check_spec (connOk : Bool) (sys : SysInputs) : Bool × Option HealthReason :=
  if !connOk then (false, some .connection_unavailable)
  else if 90 < sys.cpu ∨ 90 < sys.memory_percent then (false, some .resource_exhausted)
  else if latencyOver sys.latency 100 then (false, some .network_degraded)
  else (true, none)

/-! ### Strategy configuration -/

/-- The strategy configuration dictionary, restricted to the keys the
embedded code reads via `config.get`.  A `none` field is an absent key;
`Config.update` is Python's `dict.update` on these keys. -/
structure Config where
  symbol : Option String := none
  timeframe : Option Nat := none
  cooldown : Option Nat := none
  check_interval : Option Nat := none
  lookback_bars : Option Nat := none
  symbol_triplet : Option (List String) := none
deriving DecidableEq, Repr

/-- Python `dict.update`: keys present in `new` override, the rest keep
their old binding (`TradingStrategy.update_config`, `src/main.py`
line 185). -/
def Config.update (c new : Config) : Config :=
  { symbol := new.symbol <|> c.symbol
    timeframe := new.timeframe <|> c.timeframe
    cooldown := new.cooldown <|> c.cooldown
    check_interval := new.check_interval <|> c.check_interval
    lookback_bars := new.lookback_bars <|> c.lookback_bars
    symbol_triplet := new.symbol_triplet <|> c.symbol_triplet }

/-- The `mt5.TIMEFRAME_M15` constant used as the default timeframe of
`SMCStrategy.__init__` (`src/main.py` line 261). -/
def TIMEFRAME_M15 : Nat := 15

/-! ### Strategy runtime states -/

/-- A market-data frame, abstractly: the embedding never inspects its
contents, only tracks identity of the cached value; `pandas` `.copy()`
returns an equal-valued frame, which in a pure embedding is the value
itself. -/
structure DataFrame where
  id : Nat
deriving DecidableEq, Repr

/-- Per-instance state of `TriangleArbitrageStrategy`
(`src/main.py` lines 220-226): the base-class fields `config`, `active`,
`last_execution` (`TradingStrategy.__init__`, lines 170-174; the shared
`mt5_manager` is threaded explicitly) plus the subclass fields
`symbol_triplet`, `last_trade_time` and `cooldown`. -/
structure ArbState where
  active : Bool
  config : Config
  last_execution : Nat
  symbol_triplet : List String
  last_trade_time : Nat
  cooldown : Nat
deriving DecidableEq, Repr

/-- `TriangleArbitrageStrategy.__init__` (`src/main.py` lines 221-226):
`symbol_triplet = config.get("symbol_triplet", [...])`,
`last_trade_time = 0`, `cooldown = config.get("cooldown", 10)`; the
base `__init__` sets `active = False` and `last_execution = 0`. -/
def ArbState.init (cfg : Config) : ArbState :=
  { active := false
    config := cfg
    last_execution := 0
    symbol_triplet := cfg.symbol_triplet.getD ["EURUSD", "USDJPY", "EURJPY"]
    last_trade_time := 0
    cooldown := cfg.cooldown.getD 10 }

/-- Per-instance state of `SMCStrategy` (`src/main.py` lines 256-263):
base-class fields plus `symbol` and `timeframe` (read from the config
once, at construction), `data_cache` and `last_update`. -/
structure SmcState where
  active : Bool
  config : Config
  last_execution : Nat
  symbol : String
  timeframe : Nat
  data_cache : Option DataFrame
  last_update : Nat
deriving DecidableEq, Repr

/-- `SMCStrategy.__init__` (`src/main.py` lines 257-263):
`symbol = config.get("symbol", "EURUSD")`,
`timeframe = config.get("timeframe", mt5.TIMEFRAME_M15)`,
`data_cache = None`, `last_update = 0`. -/
def SmcState.init (cfg : Config) : SmcState :=
  { active := false
    config := cfg
    last_execution := 0
    symbol := cfg.symbol.getD "EURUSD"
    timeframe := cfg.timeframe.getD TIMEFRAME_M15
    data_cache := none
    last_update := 0 }

/-- `TradingStrategy.start` (`src/main.py` lines 176-178):
`self.active = True` (plus a log line). -/
def ArbState.start (st : ArbState) : ArbState := { st with active := true }

/-- `TradingStrategy.stop` (`src/main.py` lines 180-182):
`self.active = False`. -/
def ArbState.stop (st : ArbState) : ArbState := { st with active := false }

/-- `TradingStrategy.start` as inherited by `SMCStrategy`. -/
def SmcState.start (st : SmcState) : SmcState := { st with active := true }

/-- `TradingStrategy.stop` as inherited by `SMCStrategy`. -/
def SmcState.stop (st : SmcState) : SmcState := { st with active := false }

/-- `TradingStrategy.update_config` (`src/main.py` lines 184-186),
inherited by `TriangleArbitrageStrategy`: `self.config.update(new_config)`.
Only the config dictionary is mutated; every other runtime field is left
as it is. -/
def ArbState.update_config (st : ArbState) (new : Config) : ArbState :=
  { st with config := st.config.update new }

/-- `TradingStrategy.update_config` as inherited by `SMCStrategy`. -/
def SmcState.update_config (st : SmcState) (new : Config) : SmcState :=
  { st with config := st.config.update new }

/-! ### The SMC market-data cache -/

/-- Outcome of the fetch pipeline inside `SMCStrategy.get_cached_data`'s
`try` block (`src/main.py` lines 271-283):
`mt5.copy_rates_from_pos(...)`, `pd.DataFrame(rates)` and the
`pd.to_datetime` column conversion. -/
inductive FetchOutcome where
  /-- the whole pipeline succeeds, producing `df`; `last_update` is set -/
  | ok (df : DataFrame)
  /-- an exception is raised before `self.data_cache` is assigned
  (in `copy_rates_from_pos` or `pd.DataFrame`) -/
  | raisesEarly
  /-- `self.data_cache = pd.DataFrame(rates)` has already assigned `df`
  when the time-column conversion raises, so the cache keeps the partial
  frame but `last_update` is not advanced -/
  | raisesLate (df : DataFrame)
deriving DecidableEq, Repr

/-- The arguments `get_cached_data` passes to
`mt5.copy_rates_from_pos` (`src/main.py` lines 272-277): the symbol and
timeframe captured at construction and
`config.get('lookback_bars', 100)` re-read from the config. -/
structure FetchRequest where
  symbol : String
  timeframe : Nat
  count : Nat
deriving DecidableEq, Repr

instance : DecidableEq (Except Unit DataFrame) := fun a b =>
  match a, b with
  | .ok x, .ok y =>
      if h : x = y then .isTrue (by rw [h])
      else .isFalse (fun hh => h (Except.ok.inj hh))
  | .error x, .error y => .isTrue (by cases x; cases y; rfl)
  | .ok _, .error _ => .isFalse (fun hh => Except.noConfusion hh)
  | .error _, .ok _ => .isFalse (fun hh => Except.noConfusion hh)

/-- Result of one `get_cached_data` call: `ret` is the returned frame or
`Except.error ()` when the call raises (in particular
`self.data_cache.copy()` on a `None` cache raises `AttributeError`,
which `get_cached_data` does not catch); `st` is the updated strategy
state; `request` records the `copy_rates_from_pos` call issued, if
any. -/
structure GcdResult where
  ret : Except Unit DataFrame
  st : SmcState
  request : Option FetchRequest
deriving DecidableEq, Repr

/-- `SMCStrategy.get_cached_data` (`src/main.py` lines 265-285): refresh
the cache when forced, when it is empty, or when it is older than the
30-second `cache_duration`; exceptions from the fetch pipeline are
caught and logged inside the function; then `return self.data_cache.copy()` —
which raises if the cache is still `None`. -/
def SMCStrategy.get_cached_data (st : SmcState) (now : Nat) (force : Bool)
    (fetch : FetchOutcome) : GcdResult :=
  if force = true ∨ st.data_cache = none ∨ 30 < now - st.last_update then
    let req : FetchRequest :=
      { symbol := st.symbol, timeframe := st.timeframe,
        count := st.config.lookback_bars.getD 100 }
    let st1 :=
      match fetch with
      | .ok df => { st with data_cache := some df, last_update := now }
      | .raisesEarly => st
      | .raisesLate df => { st with data_cache := some df }
    match st1.data_cache with
    | some df => { ret := .ok df, st := st1, request := some req }
    | none => { ret := .error (), st := st1, request := some req }
  else
    match st.data_cache with
    | some df => { ret := .ok df, st := st, request := none }
    | none => { ret := .error (), st := st, request := none }

/-! ### Strategy execution loops -/

/-- Observable actions of one iteration of a strategy `execute` loop, in
program order. -/
inductive Event where
  /-- `time.sleep(0.1)` in the cooldown branch of the arbitrage loop -/
  | sleepQuantum
  /-- a call to `self.health_check()` -/
  | healthProbe
  /-- control reaches the strategy's decision-logic placeholder -/
  | decisionInvoked
  /-- an exception from the iteration body is caught by the loop-level
  `except` clause -/
  | exceptionCaught
  /-- `time.sleep(5)` (health-gate failure, `df is None` guard, or the
  loop-level exception handler) -/
  | sleepBackoff
  /-- `time.sleep(self.config.get('check_interval', 60))` with the value
  actually slept -/
  | sleepInterval (seconds : Nat)
  /-- the `if df is None` branch of `SMCStrategy.execute` is taken -/
  | dfNoneGuard
deriving DecidableEq, Repr

/-- External outcomes consumed by one iteration of
`TriangleArbitrageStrategy.execute`: the `time.time()` sample taken at
the top, the underlying-connection outcome and system/latency samples
the health check would consume, whether the (placeholder, pluggable)
arbitrage decision body raises, and the `time.time()` sample taken
after it. -/
structure ArbIterInput where
  now : Nat
  attempt : AttemptOutcome
  sys : SysInputs
  decisionRaises : Bool
  tAfter : Nat
deriving DecidableEq, Repr

/-- One iteration of the `while self.active` body of
`TriangleArbitrageStrategy.execute` (`src/main.py` lines 228-251):
cooldown guard first (`time.sleep(0.1); continue` — the health check is
not consulted), then `health_check` (`time.sleep(5); continue` on
failure), then the arbitrage placeholder and
`self.last_trade_time = time.time()`; any exception in the body is
caught by the loop-level `except`, logged, and followed by
`time.sleep(5)`.  Returns the updated strategy state, the updated shared
connection manager, and the iteration's event trace. -/
def TriangleArbitrageStrategy.iter (st : ArbState) (conn : MT5ConnectionManager)
    (i : ArbIterInput) : ArbState × MT5ConnectionManager × List Event :=
  if i.now - st.last_trade_time < st.cooldown then
    (st, conn, [.sleepQuantum])
  else
    let hc := health_check conn i.now i.attempt i.sys
    if hc.1 = false then
      (st, hc.2, [.healthProbe, .sleepBackoff])
    else if i.decisionRaises then
      (st, hc.2, [.healthProbe, .decisionInvoked, .exceptionCaught, .sleepBackoff])
    else
      ({ st with last_trade_time := i.tAfter }, hc.2,
        [.healthProbe, .decisionInvoked])

/-- External outcomes consumed by one iteration of
`SMCStrategy.execute`: the `time.time()` sample `get_cached_data` would
take, the connection/system samples for the health check, the fetch
pipeline's outcome, and whether the (placeholder, pluggable) SMC
decision body raises. -/
structure SmcIterInput where
  now : Nat
  attempt : AttemptOutcome
  sys : SysInputs
  fetch : FetchOutcome
  decisionRaises : Bool
deriving DecidableEq, Repr

/-- One iteration of the `while self.active` body of
`SMCStrategy.execute` (`src/main.py` lines 287-308): `health_check`
first (`time.sleep(5); continue` on failure — there is no cooldown
guard in this loop), then `df = self.get_cached_data()` (whose
exceptions reach the loop-level handler), the `if df is None` guard,
the SMC placeholder, and `time.sleep(self.config.get('check_interval', 60))`;
any exception in the body is caught by the loop-level `except`, logged,
and followed by `time.sleep(5)`. -/
def SMCStrategy.iter (st : SmcState) (conn : MT5ConnectionManager)
    (i : SmcIterInput) : SmcState × MT5ConnectionManager × List Event :=
  let hc := health_check conn i.now i.attempt i.sys
  if hc.1 = false then
    (st, hc.2, [.healthProbe, .sleepBackoff])
  else
    let g := SMCStrategy.get_cached_data st i.now false i.fetch
    match g.ret with
    | .error _ =>
        (g.st, hc.2, [.healthProbe, .exceptionCaught, .sleepBackoff])
    | .ok df =>
        match (some df : Option DataFrame) with
        | none => (g.st, hc.2, [.healthProbe, .dfNoneGuard, .sleepBackoff])
        | some _ =>
            if i.decisionRaises then
              (g.st, hc.2,
                [.healthProbe, .decisionInvoked, .exceptionCaught, .sleepBackoff])
            else
              (g.st, hc.2,
                [.healthProbe, .decisionInvoked,
                  .sleepInterval (g.st.config.check_interval.getD 60)])

/-- The `while self.active:` loop of `TriangleArbitrageStrategy.execute`
run over a finite schedule of per-iteration external outcomes: at each
iteration boundary the active flag is consulted; when it is clear the
loop exits at once.  Returns the final state and the trace of each
iteration that ran. -/
def TriangleArbitrageStrategy.run (st : ArbState) (conn : MT5ConnectionManager) :
    List ArbIterInput → (ArbState × MT5ConnectionManager) × List (List Event)
  | [] => ((st, conn), [])
  | i :: is =>
      if st.active then
        let step := TriangleArbitrageStrategy.iter st conn i
        let rest := TriangleArbitrageStrategy.run step.1 step.2.1 is
        (rest.1, step.2.2 :: rest.2)
      else ((st, conn), [])

/-- The `while self.active:` loop of `SMCStrategy.execute` run over a
finite schedule of per-iteration external outcomes. -/
def SMCStrategy.run (st : SmcState) (conn : MT5ConnectionManager) :
    List SmcIterInput → (SmcState × MT5ConnectionManager) × List (List Event)
  | [] => ((st, conn), [])
  | i :: is =>
      if st.active then
        let step := SMCStrategy.iter st conn i
        let rest := SMCStrategy.run step.1 step.2.1 is
        (rest.1, step.2.2 :: rest.2)
      else ((st, conn), [])

/-! ### Two concurrent runtimes sharing the connection manager -/

/-- The process state relevant to cross-strategy isolation: the shared
singleton connection manager and the per-strategy states of one
arbitrage runtime and one SMC runtime.  Market-data cache, cooldown
timer and config live inside the per-strategy states. -/
structure World where
  conn : MT5ConnectionManager
  arb : ArbState
  smc : SmcState
deriving DecidableEq, Repr

/-- One arbitrage-loop iteration acting on the process state: only the
arbitrage runtime's own state and the shared connection manager are
written. -/
def World.arbStep (w : World) (i : ArbIterInput) : World × List Event :=
  let step := TriangleArbitrageStrategy.iter w.arb w.conn i
  ({ w with arb := step.1, conn := step.2.1 }, step.2.2)

/-- One SMC-loop iteration acting on the process state: only the SMC
runtime's own state and the shared connection manager are written. -/
def World.smcStep (w : World) (i : SmcIterInput) : World × List Event :=
  let step := SMCStrategy.iter w.smc w.conn i
  ({ w with smc := step.1, conn := step.2.1 }, step.2.2)

/-! ### Orchestrator registry -/

/-- Modelled from the spec: the §4.3 runtime status
`Idle --start--> Running --stop--> Stopping`. -/
inductive RuntimeStatus where
  | Idle
  | Running
  | Stopping
deriving DecidableEq, Repr

/-- Modelled from the spec: a registry entry of the Orchestrator — one
runtime instance with its status and configuration (§3
"StrategyRuntime state", §4.4). -/
structure RuntimeEntry where
  status : RuntimeStatus
  config : Config
deriving DecidableEq, Repr

/-- `StrategyManager.__init__`'s registry `self.active_strategies = {}`
(`src/main.py` line 355), as an association list keyed by strategy
identifier.  The registry invariant is that its keys are distinct. -/
structure StrategyManagerState where
  active_strategies : List (String × RuntimeEntry)
deriving DecidableEq, Repr

/-- Modelled from the spec: `StrategyManager.start_strategy` is called
from `main` and the control surface but is not defined anywhere in the
source; per §4.4, `start(id, config)` is a no-op when a runtime for `id`
is already Running (never spawning a second concurrent loop), and
otherwise registers a fresh Running runtime and spawns its loop.  The
returned boolean records whether a new execution loop was spawned. -/
def StrategyManager.start_strategy (mgr : StrategyManagerState) (id : String)
    (cfg : Config) : StrategyManagerState × Bool :=
  match mgr.active_strategies.lookup id with
  | some _ => (mgr, false)
  | none =>
      ({ active_strategies :=
          (id, { status := RuntimeStatus.Running, config := cfg })
            :: mgr.active_strategies }, true)

/-! ### Helper lemmas -/

/-- A throttled `connect()` call (invoked again within 5 seconds of the
last attempt) returns the cached state and changes nothing. -/
theorem connect_throttled (m : MT5ConnectionManager) (now : Nat) (o : AttemptOutcome)
    (h : now - m.last_connection_attempt < 5) :
    m.connect now o =
      { ret := m.connected, st := m, attempted := false, shutdownCalled := false } := by
  simp [MT5ConnectionManager.connect, h]

/-- A non-throttled `connect()` call performs the underlying attempt and
stamps `last_connection_attempt` with the call time. -/
theorem connect_attempted (m : MT5ConnectionManager) (now : Nat) (o : AttemptOutcome)
    (h : ¬ now - m.last_connection_attempt < 5) :
    (m.connect now o).attempted = true
    ∧ (m.connect now o).st.last_connection_attempt = now := by
  cases o <;> simp [MT5ConnectionManager.connect, h]

/-- While every scheduled call time stays under `B` and the manager's
last attempt is within 5 seconds of `B`, no call in the sequence
attempts and the manager state is unchanged. -/
theorem runConnects_all_throttled (calls : List (Nat × AttemptOutcome))
    (m : MT5ConnectionManager) (B : Nat)
    (hB : ∀ c ∈ calls, c.1 < B) (hlast : B ≤ m.last_connection_attempt + 5) :
    (runConnects m calls).2.1 = 0 ∧ (runConnects m calls).1 = m := by
  induction calls with
  | nil => simp [runConnects]
  | cons c cs ih =>
      have hc : c.1 < B := hB c (List.mem_cons_self c cs)
      have hth : c.1 - m.last_connection_attempt < 5 := by omega
      have hcn := connect_throttled m c.1 c.2 hth
      have ihr := ih (fun c' hc' => hB c' (List.mem_cons_of_mem c hc'))
      simp only [runConnects, hcn]
      simpa using ihr

/-! ### Claim C1 -/

/-- C1 counterexample: three `connect()` calls at times 10, 14, 18 from
the freshly initialized manager have consecutive gaps of 4 seconds —
each below the 5-second minimum retry interval — yet two of them perform
a real underlying attempt: the throttle measures from the last
*attempt*, so the call at 18 (8 seconds after the attempt at 10) attempts
again.  This refutes "at most one call performs a real underlying
connection attempt" for consecutive-spaced sequences. -/
theorem c1_consecutive_spacing_two_attempts :
    14 - 10 < 5 ∧ 18 - 14 < 5 ∧
    (runConnects MT5ConnectionManager.initState
      [(10, AttemptOutcome.success), (14, AttemptOutcome.success),
        (18, AttemptOutcome.success)]).2.1 = 2 := by
  decide

/-- C1 (amended): in every sequence of `connect()` calls that all fall
inside one window shorter than 5 seconds, at most one call performs a
real underlying attempt; and every call that makes no attempt returns
the currently cached connection state and leaves the manager unchanged.
(The source throttles relative to the last attempt, so consecutive calls
each under 5 seconds apart can still attempt twice once they span 5
seconds or more.) -/
theorem c1_connect_burst_at_most_one_attempt :
    (∀ (m : MT5ConnectionManager) (lo : Nat) (calls : List (Nat × AttemptOutcome)),
      (∀ c ∈ calls, lo ≤ c.1 ∧ c.1 < lo + 5) →
      (runConnects m calls).2.1 ≤ 1)
    ∧ (∀ (m : MT5ConnectionManager) (now : Nat) (o : AttemptOutcome),
      (m.connect now o).attempted = false →
      (m.connect now o).ret = m.connected ∧ (m.connect now o).st = m) := by
  constructor
  · intro m lo calls h
    induction calls generalizing m with
    | nil => simp [runConnects]
    | cons c cs ih =>
        have hc := h c (List.mem_cons_self c cs)
        have htail : ∀ c' ∈ cs, lo ≤ c'.1 ∧ c'.1 < lo + 5 :=
          fun c' hc' => h c' (List.mem_cons_of_mem c hc')
        by_cases hth : c.1 - m.last_connection_attempt < 5
        · have hcn := connect_throttled m c.1 c.2 hth
          have ihr := ih m htail
          simp only [runConnects, hcn]
          simpa using ihr
        · have hatt := connect_attempted m c.1 c.2 hth
          have hzero := runConnects_all_throttled cs (m.connect c.1 c.2).st (lo + 5)
            (fun c' hc' => (htail c' hc').2) (by omega)
          simp only [runConnects, hatt.1, hzero.1]
          simp
  · intro m now o h
    by_cases hth : now - m.last_connection_attempt < 5
    · simp [connect_throttled m now o hth]
    · exact absurd ((connect_attempted m now o hth).1) (by simp [h])

/-- Witness for C1: a concrete burst — calls at times 10, 12 and 13,
all inside the window [10, 15) — attempts at most once, by the amended
theorem. -/
theorem c1_connect_burst_at_most_one_attempt_witness :
    (runConnects MT5ConnectionManager.initState
      [(10, AttemptOutcome.success), (12, AttemptOutcome.initFail),
        (13, AttemptOutcome.raises)]).2.1 ≤ 1 :=
  c1_connect_burst_at_most_one_attempt.1 MT5ConnectionManager.initState 10 _ (by decide)

/-! ### Claim C4 -/

/-- C4 counterexample: the source's health check returns a bare boolean,
not the claimed `(ok, reason)` pair.  On the scenario input
{connection up, cpu 95, mem 50, latency 10ms} and on the distinct input
{cpu 10, mem 10, latency 500ms} the spec's pair contract yields
different reasons (`resource_exhausted` versus `network_degraded`),
while the code returns the identical bare `false` for both — so the
code's failing result for the scenario carries no `resource_exhausted`
value, refuting the claim as stated. -/
theorem c4_health_check_returns_no_reason :
    health_check_pure true { cpu := 95, memory_percent := 50, latency := some 10 } = false
    ∧ health_check_pure true { cpu := 10, memory_percent := 10, latency := some 500 } = false
    ∧ (check_spec true { cpu := 95, memory_percent := 50, latency := some 10 }).2
        = some HealthReason.resource_exhausted
    ∧ (check_spec true { cpu := 10, memory_percent := 10, latency := some 500 }).2
        = some HealthReason.network_degraded
    ∧ health_check_pure true { cpu := 95, memory_percent := 50, latency := some 10 }
        = health_check_pure true { cpu := 10, memory_percent := 10, latency := some 500 } := by
  decide

/-- C4 (amended): `health_check` returns only a boolean — the reason is
logged, not returned.  For inputs {connection up, cpu 95, mem 50,
latency 10} it returns `false` (also through the full path with a
connected manager), the guard that fires is the CPU resource guard, and
that is the outcome the spec's pair contract renders as
`(false, resource_exhausted)`. -/
theorem c4_health_check_fails_on_resources :
    health_check_pure true { cpu := 95, memory_percent := 50, latency := some 10 } = false
    ∧ (health_check { connected := true, last_connection_attempt := 0, connection_interval := 60 }
        100 AttemptOutcome.success { cpu := 95, memory_percent := 50, latency := some 10 }).1
        = false
    ∧ health_check_failure true { cpu := 95, memory_percent := 50, latency := some 10 }
        = some HealthFail.cpu
    ∧ check_spec true { cpu := 95, memory_percent := 50, latency := some 10 }
        = (false, some HealthReason.resource_exhausted) := by
  decide

/-! ### Claim C5 -/

/-- C5 counterexample: with the last attempt 2 seconds ago,
`reconnect()` performs no real underlying attempt — the 5-second
throttle inside `connect()` still applies to it — and returns `false`
(the connected flag it just cleared) even though the fresh attempt, had
it been made, would have succeeded. -/
theorem c5_reconnect_skipped_by_throttle :
    (MT5ConnectionManager.reconnect
      { connected := true, last_connection_attempt := 100, connection_interval := 60 }
      102 AttemptOutcome.success).attempted = false
    ∧ (MT5ConnectionManager.reconnect
      { connected := true, last_connection_attempt := 100, connection_interval := 60 }
      102 AttemptOutcome.success).ret = false := by
  decide

/-- C5 (amended): `reconnect()` clears the cached connected flag and
delegates to `connect()`: when at least 5 seconds have passed since the
last attempt, a real attempt is performed and the returned boolean
reflects it (`true` exactly on success); when called sooner, the
throttle skips the attempt and `reconnect` returns `false` — the
just-cleared cached state — regardless of what a fresh attempt would
have produced. -/
theorem c5_reconnect_behavior (m : MT5ConnectionManager) (now : Nat) (o : AttemptOutcome) :
    (5 ≤ now - m.last_connection_attempt →
      (m.reconnect now o).attempted = true
      ∧ ((m.reconnect now o).ret = true ↔ o = AttemptOutcome.success))
    ∧ (now - m.last_connection_attempt < 5 →
      (m.reconnect now o).attempted = false ∧ (m.reconnect now o).ret = false) := by
  constructor
  · intro h
    have hth : ¬ now - ({ m with connected := false } :
        MT5ConnectionManager).last_connection_attempt < 5 := by
      simp; omega
    unfold MT5ConnectionManager.reconnect
    cases o <;> simp [MT5ConnectionManager.connect, hth]
  · intro h
    have hth : now - ({ m with connected := false } :
        MT5ConnectionManager).last_connection_attempt < 5 := by simpa using h
    unfold MT5ConnectionManager.reconnect
    simp [connect_throttled _ now o hth]

/-- Witness for C5: both branches of the amended theorem at concrete
inputs — a reconnect 100 seconds after the last attempt does attempt,
one 2 seconds after does not. -/
theorem c5_reconnect_behavior_witness :
    (MT5ConnectionManager.reconnect
      { connected := true, last_connection_attempt := 100, connection_interval := 60 }
      200 AttemptOutcome.initFail).attempted = true
    ∧ (MT5ConnectionManager.reconnect
      { connected := false, last_connection_attempt := 100, connection_interval := 60 }
      102 AttemptOutcome.success).attempted = false :=
  ⟨((c5_reconnect_behavior
      { connected := true, last_connection_attempt := 100, connection_interval := 60 }
      200 AttemptOutcome.initFail).1 (by decide)).1,
    ((c5_reconnect_behavior
      { connected := false, last_connection_attempt := 100, connection_interval := 60 }
      102 AttemptOutcome.success).2 (by decide)).1⟩

/-! ### Claim C6 -/

/-- C6 counterexample: a `connect()` whose underlying call raises (time
10, fresh manager, so the attempt is made) is caught and converted to a
`false` return with state Disconnected — but `mt5.shutdown()` is NOT
called on this path: the `except` clause only logs and clears the flag,
so the session is not explicitly released before returning, refuting
the claim for the exception case. -/
theorem c6_exception_path_skips_shutdown :
    (MT5ConnectionManager.connect MT5ConnectionManager.initState 10
      AttemptOutcome.raises).ret = false
    ∧ (MT5ConnectionManager.connect MT5ConnectionManager.initState 10
      AttemptOutcome.raises).st.connected = false
    ∧ (MT5ConnectionManager.connect MT5ConnectionManager.initState 10
      AttemptOutcome.raises).shutdownCalled = false := by
  decide

/-- C6 (amended): in every `connect()` execution that performs its
underlying attempt and fails: when `initialize`/`login` return false,
the state becomes Disconnected, `mt5.shutdown()` is called, and `false`
is returned; when the underlying call raises, the exception is caught
and converted into a `false` return with state Disconnected — but
without the shutdown call.  In neither case does the exception
propagate: every outcome yields a normal boolean return. -/
theorem c6_connect_failure_behavior (m : MT5ConnectionManager) (now : Nat)
    (o : AttemptOutcome) (hatt : 5 ≤ now - m.last_connection_attempt) :
    ((o = AttemptOutcome.initFail ∨ o = AttemptOutcome.loginFail) →
      (m.connect now o).ret = false ∧ (m.connect now o).st.connected = false
      ∧ (m.connect now o).shutdownCalled = true)
    ∧ (o = AttemptOutcome.raises →
      (m.connect now o).ret = false ∧ (m.connect now o).st.connected = false
      ∧ (m.connect now o).shutdownCalled = false) := by
  have hth : ¬ now - m.last_connection_attempt < 5 := by omega
  constructor
  · rintro (rfl | rfl) <;> simp [MT5ConnectionManager.connect, hth]
  · rintro rfl
    simp [MT5ConnectionManager.connect, hth]

/-- Witness for C6: the amended theorem applied at time 10 from the
fresh manager, for a login failure. -/
theorem c6_connect_failure_behavior_witness :
    (MT5ConnectionManager.connect MT5ConnectionManager.initState 10
      AttemptOutcome.loginFail).shutdownCalled = true :=
  ((c6_connect_failure_behavior MT5ConnectionManager.initState 10
      AttemptOutcome.loginFail (by decide)).1 (Or.inr rfl)).2.2

/-! ### Claim C2 -/

/-- C2 counterexample: SMCStrategy's loop has no cooldown guard at all.
Starting an SMC runtime whose config sets cooldown 10 and running two
healthy iterations 1 second apart (times 0 and 1), both iterations
consult the health gate as their very first action and both invoke the
decision logic, 1 second < 10 seconds after the previous invocation,
with no cooldown event (no 0.1s sleep-and-retry) anywhere.  This
refutes "for every strategy kind the cooldown check runs first, before
any health-gate probe". -/
theorem c2_smc_has_no_cooldown_guard :
    (SMCStrategy.run
      (SmcState.start (SmcState.init { cooldown := some 10 }))
      { connected := true, last_connection_attempt := 0, connection_interval := 60 }
      [{ now := 0, attempt := AttemptOutcome.success,
          sys := { cpu := 10, memory_percent := 10, latency := some 10 },
          fetch := FetchOutcome.ok { id := 1 }, decisionRaises := false },
        { now := 1, attempt := AttemptOutcome.success,
          sys := { cpu := 10, memory_percent := 10, latency := some 10 },
          fetch := FetchOutcome.ok { id := 2 }, decisionRaises := false }]).2
      = [[Event.healthProbe, Event.decisionInvoked, Event.sleepInterval 60],
          [Event.healthProbe, Event.decisionInvoked, Event.sleepInterval 60]]
    ∧ 1 - 0 < 10 := by
  decide

/-- C2 (amended): only TriangleArbitrageStrategy enforces a cooldown,
measured from its own `last_trade_time`: when
`now - last_trade_time < cooldown`, the iteration is exactly a
0.1-second sleep-and-retry — no health probe, no decision, state and
shared manager untouched — so its decision logic runs only once the
cooldown has elapsed.  SMCStrategy's loop has no cooldown guard: every
one of its iterations consults the health gate as its first action. -/
theorem c2_cooldown_guard_arbitrage_only (st : ArbState) (conn : MT5ConnectionManager)
    (i : ArbIterInput) (sm : SmcState) (j : SmcIterInput) :
    (i.now - st.last_trade_time < st.cooldown →
      TriangleArbitrageStrategy.iter st conn i = (st, conn, [Event.sleepQuantum]))
    ∧ (Event.decisionInvoked ∈ (TriangleArbitrageStrategy.iter st conn i).2.2 →
      st.cooldown ≤ i.now - st.last_trade_time)
    ∧ (SMCStrategy.iter sm conn j).2.2.head? = some Event.healthProbe := by
  refine ⟨?_, ?_, ?_⟩
  · intro h
    simp [TriangleArbitrageStrategy.iter, h]
  · intro hmem
    by_cases h : i.now - st.last_trade_time < st.cooldown
    · simp [TriangleArbitrageStrategy.iter, h] at hmem
    · omega
  · unfold SMCStrategy.iter
    by_cases h1 : (health_check conn j.now j.attempt j.sys).1 = false
    · simp [h1]
    · cases hg : (SMCStrategy.get_cached_data sm j.now false j.fetch).ret with
      | error a => simp [h1, hg]
      | ok df => by_cases h2 : j.decisionRaises = true <;> simp [h1, hg, h2]

/-- Witness for C2: a concrete arbitrage iteration 3 seconds after the
last trade, under the default 10-second cooldown, is exactly the
quantum sleep. -/
theorem c2_cooldown_guard_arbitrage_only_witness :
    TriangleArbitrageStrategy.iter (ArbState.start (ArbState.init {}))
      { connected := true, last_connection_attempt := 0, connection_interval := 60 }
      { now := 3, attempt := AttemptOutcome.success,
        sys := { cpu := 10, memory_percent := 10, latency := some 10 },
        decisionRaises := false, tAfter := 3 }
      = (ArbState.start (ArbState.init {}),
          { connected := true, last_connection_attempt := 0, connection_interval := 60 },
          [Event.sleepQuantum]) :=
  (c2_cooldown_guard_arbitrage_only (ArbState.start (ArbState.init {})) _ _
    (SmcState.init {})
    { now := 0, attempt := AttemptOutcome.success,
      sys := { cpu := 10, memory_percent := 10, latency := some 10 },
      fetch := FetchOutcome.raisesEarly, decisionRaises := false }).1 (by decide)

/-! ### Claim C3 -/

/-- When `lookup` finds nothing for a key, the key is not among the
association list's keys. -/
theorem lookup_none_not_mem {β : Type} (id : String) (l : List (String × β))
    (h : l.lookup id = none) : id ∉ l.map Prod.fst := by
  induction l with
  | nil => simp
  | cons p l ih =>
      obtain ⟨k, v⟩ := p
      simp only [List.lookup] at h
      cases hek : (id == k) with
      | true => rw [hek] at h; simp at h
      | false =>
          rw [hek] at h
          simp only [List.map_cons, List.mem_cons]
          push_neg
          exact ⟨ne_of_beq_false hek, ih h⟩

/-- C3: starting a strategy identifier whose runtime is already
registered (Running) is a no-op — the registry is unchanged and no
second execution loop is spawned; `start` preserves distinctness of the
registry's identifiers, so at most one runtime exists per identifier;
and the source's `TradingStrategy.start` on an already-active strategy
(arbitrage or SMC) leaves its state exactly as it was. -/
theorem c3_start_running_is_noop (mgr : StrategyManagerState) (id : String)
    (cfg : Config) (e : RuntimeEntry) (st : ArbState) (sm : SmcState) :
    (mgr.active_strategies.lookup id = some e →
      StrategyManager.start_strategy mgr id cfg = (mgr, false))
    ∧ ((mgr.active_strategies.map Prod.fst).Nodup →
      ((StrategyManager.start_strategy mgr id cfg).1.active_strategies.map Prod.fst).Nodup)
    ∧ (st.active = true → st.start = st)
    ∧ (sm.active = true → sm.start = sm) := by
  refine ⟨?_, ?_, ?_, ?_⟩
  · intro h
    simp [StrategyManager.start_strategy, h]
  · intro h
    cases hl : mgr.active_strategies.lookup id with
    | some e' => simpa [StrategyManager.start_strategy, hl] using h
    | none =>
        simp only [StrategyManager.start_strategy, hl, List.map_cons, List.nodup_cons]
        exact ⟨lookup_none_not_mem id _ hl, h⟩
  · intro h
    cases st
    simp_all [ArbState.start]
  · intro h
    cases sm
    simp_all [SmcState.start]

/-- Witness for C3: starting `smc` when an `smc` runtime is already
registered returns the registry unchanged and spawns nothing; and a
concrete already-active arbitrage strategy is unchanged by `start`. -/
theorem c3_start_running_is_noop_witness :
    StrategyManager.start_strategy
      { active_strategies := [("smc", { status := RuntimeStatus.Running, config := {} })] }
      "smc" {}
      = ({ active_strategies :=
            [("smc", { status := RuntimeStatus.Running, config := {} })] }, false)
    ∧ (ArbState.start (ArbState.init {})).start = ArbState.start (ArbState.init {}) := by
  refine ⟨?_, ?_⟩
  · exact (c3_start_running_is_noop
      { active_strategies := [("smc", { status := RuntimeStatus.Running, config := {} })] }
      "smc" {} { status := RuntimeStatus.Running, config := {} }
      (ArbState.init {}) (SmcState.init {})).1 (by decide)
  · exact (c3_start_running_is_noop
      { active_strategies := [] } "smc" {}
      { status := RuntimeStatus.Running, config := {} }
      (ArbState.start (ArbState.init {})) (SmcState.init {})).2.2.1 (by decide)

/-! ### More helper lemmas -/

/-- `get_cached_data` only writes the cache fields: the active flag,
config, symbol and timeframe of the strategy state pass through
unchanged. -/
theorem get_cached_data_frame (st : SmcState) (now : Nat) (force : Bool) (f : FetchOutcome) :
    (SMCStrategy.get_cached_data st now force f).st.active = st.active
    ∧ (SMCStrategy.get_cached_data st now force f).st.config = st.config
    ∧ (SMCStrategy.get_cached_data st now force f).st.symbol = st.symbol
    ∧ (SMCStrategy.get_cached_data st now force f).st.timeframe = st.timeframe := by
  unfold SMCStrategy.get_cached_data
  by_cases h : (force = true ∨ st.data_cache = none ∨ 30 < now - st.last_update)
  · simp only [if_pos h]
    cases f with
    | ok df => simp
    | raisesEarly => cases hc : st.data_cache <;> simp [hc]
    | raisesLate df => simp
  · simp only [if_neg h]
    split <;> simp

/-- The `copy_rates_from_pos` request `get_cached_data` issues, when it
issues one, always carries the construction-time symbol and timeframe
and the config's current `lookback_bars`. -/
theorem get_cached_data_request (st : SmcState) (now : Nat) (force : Bool) (f : FetchOutcome) :
    (SMCStrategy.get_cached_data st now force f).request = none
    ∨ (SMCStrategy.get_cached_data st now force f).request
      = some { symbol := st.symbol, timeframe := st.timeframe,
                count := st.config.lookback_bars.getD 100 } := by
  unfold SMCStrategy.get_cached_data
  by_cases h : (force = true ∨ st.data_cache = none ∨ 30 < now - st.last_update)
  · right
    simp only [if_pos h]
    cases f with
    | ok df => simp
    | raisesEarly => cases hc : st.data_cache <;> simp [hc]
    | raisesLate df => simp
  · left
    simp only [if_neg h]
    split <;> simp

/-- An arbitrage iteration never writes the active flag: only an
explicit `stop()` can clear it. -/
theorem arbIter_preserves_active (st : ArbState) (conn : MT5ConnectionManager)
    (i : ArbIterInput) :
    (TriangleArbitrageStrategy.iter st conn i).1.active = st.active := by
  unfold TriangleArbitrageStrategy.iter
  by_cases h : i.now - st.last_trade_time < st.cooldown
  · simp [h]
  · by_cases h1 : (health_check conn i.now i.attempt i.sys).1 = false
    · simp [h, h1]
    · by_cases h2 : i.decisionRaises = true <;> simp [h, h1, h2]

/-- An SMC iteration never writes the active flag. -/
theorem smcIter_preserves_active (sm : SmcState) (conn : MT5ConnectionManager)
    (j : SmcIterInput) :
    (SMCStrategy.iter sm conn j).1.active = sm.active := by
  have hg := (get_cached_data_frame sm j.now false j.fetch).1
  unfold SMCStrategy.iter
  by_cases h1 : (health_check conn j.now j.attempt j.sys).1 = false
  · simp [h1]
  · cases hgo : (SMCStrategy.get_cached_data sm j.now false j.fetch).ret with
    | error a => simpa [h1, hgo] using hg
    | ok df => by_cases h2 : j.decisionRaises = true <;> simp [h1, hgo, h2, hg]

/-- The manager `health_check` hands back is exactly the one
`ensure_connection` produced. -/
theorem health_check_snd (conn : MT5ConnectionManager) (now : Nat)
    (att : AttemptOutcome) (sys : SysInputs) :
    (health_check conn now att sys).2 = (conn.ensure_connection now att).st := rfl

/-! ### Claim C7 -/

/-- C7 counterexample: an SMC runtime constructed with symbol `EURUSD`
and then hot-updated to symbol `GBPUSD` still requests `EURUSD` data on
its next fetch: `get_cached_data` reads `self.symbol`, captured in
`__init__`, not the updated config — even though the config itself now
holds `GBPUSD`.  This refutes "every updated field (including symbol
and timeframe) takes effect on the next loop cycle". -/
theorem c7_symbol_update_never_takes_effect :
    ((SMCStrategy.get_cached_data
        (SmcState.update_config (SmcState.init { symbol := some "EURUSD" })
          { symbol := some "GBPUSD" })
        0 false (FetchOutcome.ok { id := 1 })).request.map FetchRequest.symbol)
      = some "EURUSD"
    ∧ (SmcState.update_config (SmcState.init { symbol := some "EURUSD" })
        { symbol := some "GBPUSD" }).config.symbol = some "GBPUSD" := by
  decide

/-- C7 (amended): `update_config` merges the new fields into the
existing config without restarting the runtime (the active flag, cache
and timers are untouched), and fields the loop re-reads from the config
at use time do take effect on the next cycle — an updated
`lookback_bars` governs the next fetch and an updated `check_interval`
governs the next iteration's sleep — but `symbol` and `timeframe` are
captured by `__init__` into instance attributes and keep their
construction-time values after any update. -/
theorem c7_update_config_partial_effect (st : SmcState) (new cfg : Config)
    (now : Nat) (f : FetchOutcome) (lb k : Nat) (conn : MT5ConnectionManager)
    (i : SmcIterInput) (df : DataFrame) :
    ((SmcState.update_config st new).config = st.config.update new
      ∧ (SmcState.update_config st new).active = st.active
      ∧ (SmcState.update_config st new).data_cache = st.data_cache
      ∧ (SmcState.update_config st new).last_update = st.last_update)
    ∧ ((SmcState.update_config st new).symbol = st.symbol
      ∧ (SmcState.update_config st new).timeframe = st.timeframe)
    ∧ ((SmcState.init cfg).symbol = cfg.symbol.getD "EURUSD"
      ∧ (SmcState.init cfg).timeframe = cfg.timeframe.getD TIMEFRAME_M15)
    ∧ (new.lookback_bars = some lb →
      ∀ r ∈ (SMCStrategy.get_cached_data (SmcState.update_config st new) now false f).request,
        r.count = lb ∧ r.symbol = st.symbol)
    ∧ (new.check_interval = some k →
      i.decisionRaises = false →
      (health_check conn i.now i.attempt i.sys).1 = true →
      (SMCStrategy.get_cached_data (SmcState.update_config st new) i.now false i.fetch).ret
        = Except.ok df →
      (SMCStrategy.iter (SmcState.update_config st new) conn i).2.2
        = [Event.healthProbe, Event.decisionInvoked, Event.sleepInterval k]) := by
  refine ⟨⟨rfl, rfl, rfl, rfl⟩, ⟨rfl, rfl⟩, ⟨rfl, rfl⟩, ?_, ?_⟩
  · intro hlb r hr
    rcases get_cached_data_request (SmcState.update_config st new) now false f with
      hreq | hreq
    · rw [hreq] at hr
      simp at hr
    · rw [hreq] at hr
      simp only [Option.mem_def, Option.some_inj] at hr
      subst hr
      refine ⟨?_, rfl⟩
      simp [SmcState.update_config, Config.update, hlb]
  · intro hk hdr hhc hok
    have hcfg :=
      (get_cached_data_frame (SmcState.update_config st new) i.now false i.fetch).2.1
    have hgd : (SMCStrategy.get_cached_data (SmcState.update_config st new) i.now false
        i.fetch).st.config.check_interval.getD 60 = k := by
      rw [hcfg]
      simp [SmcState.update_config, Config.update, hk]
    unfold SMCStrategy.iter
    simp [hhc, hok, hdr, hgd]

/-- Witness for C7: after hot-updating `check_interval` to 7 seconds, a
healthy and successful next iteration sleeps exactly 7 seconds — the
update took effect without a restart. -/
theorem c7_update_config_partial_effect_witness :
    (SMCStrategy.iter
        (SmcState.update_config (SmcState.init {}) { check_interval := some 7 })
        { connected := true, last_connection_attempt := 0, connection_interval := 60 }
        { now := 0, attempt := AttemptOutcome.success,
          sys := { cpu := 10, memory_percent := 10, latency := some 10 },
          fetch := FetchOutcome.ok { id := 1 }, decisionRaises := false }).2.2
      = [Event.healthProbe, Event.decisionInvoked, Event.sleepInterval 7] :=
  (c7_update_config_partial_effect (SmcState.init {}) { check_interval := some 7 } {}
    0 (FetchOutcome.ok { id := 1 }) 0 7
    { connected := true, last_connection_attempt := 0, connection_interval := 60 }
    { now := 0, attempt := AttemptOutcome.success,
      sys := { cpu := 10, memory_percent := 10, latency := some 10 },
      fetch := FetchOutcome.ok { id := 1 }, decisionRaises := false }
    { id := 1 }).2.2.2.2 rfl rfl (by decide) (by decide)

/-! ### Claim C8 -/

/-- C8: iteration failures never terminate a strategy loop.  No
iteration — faulting or not — writes the active flag; a decision-logic
fault in the arbitrage loop and the realizable SMC fault (the cache
still empty and the fetch failing again, so `get_cached_data` raises)
are each caught at loop level and followed by the fixed 5-second
backoff, leaving the strategy state unchanged; a loop whose active flag
is clear exits immediately; and a loop whose flag is set runs every
scheduled iteration, however many of them fault — only an explicit stop
(clearing the flag) ends it. -/
theorem c8_loop_contains_iteration_faults (st : ArbState) (conn : MT5ConnectionManager)
    (i : ArbIterInput) (sm : SmcState) (j : SmcIterInput)
    (inputsA : List ArbIterInput) (inputsS : List SmcIterInput) :
    ((TriangleArbitrageStrategy.iter st conn i).1.active = st.active)
    ∧ ((SMCStrategy.iter sm conn j).1.active = sm.active)
    ∧ (i.decisionRaises = true → ¬ i.now - st.last_trade_time < st.cooldown →
        (health_check conn i.now i.attempt i.sys).1 = true →
        TriangleArbitrageStrategy.iter st conn i
          = (st, (health_check conn i.now i.attempt i.sys).2,
              [Event.healthProbe, Event.decisionInvoked, Event.exceptionCaught,
                Event.sleepBackoff]))
    ∧ (sm.data_cache = none → j.fetch = FetchOutcome.raisesEarly →
        (health_check conn j.now j.attempt j.sys).1 = true →
        SMCStrategy.iter sm conn j
          = (sm, (health_check conn j.now j.attempt j.sys).2,
              [Event.healthProbe, Event.exceptionCaught, Event.sleepBackoff]))
    ∧ (st.active = false → TriangleArbitrageStrategy.run st conn inputsA = ((st, conn), []))
    ∧ (sm.active = false → SMCStrategy.run sm conn inputsS = ((sm, conn), []))
    ∧ (st.active = true →
        (TriangleArbitrageStrategy.run st conn inputsA).2.length = inputsA.length)
    ∧ (sm.active = true →
        (SMCStrategy.run sm conn inputsS).2.length = inputsS.length) := by
  refine ⟨arbIter_preserves_active st conn i, smcIter_preserves_active sm conn j,
    ?_, ?_, ?_, ?_, ?_, ?_⟩
  · intro hdr hcd hhc
    unfold TriangleArbitrageStrategy.iter
    simp [hcd, hhc, hdr]
  · intro hcache hf hhc
    have hret : (SMCStrategy.get_cached_data sm j.now false j.fetch).ret
        = Except.error () := by
      rw [hf]
      unfold SMCStrategy.get_cached_data
      rw [if_pos (Or.inr (Or.inl hcache))]
      simp [hcache]
    have hst : (SMCStrategy.get_cached_data sm j.now false j.fetch).st = sm := by
      rw [hf]
      unfold SMCStrategy.get_cached_data
      rw [if_pos (Or.inr (Or.inl hcache))]
      simp [hcache]
    unfold SMCStrategy.iter
    simp [hhc, hret, hst]
  · intro h
    cases inputsA <;> simp [TriangleArbitrageStrategy.run, h]
  · intro h
    cases inputsS <;> simp [SMCStrategy.run, h]
  · intro h
    induction inputsA generalizing st conn with
    | nil => rfl
    | cons a as ih =>
        have hact : (TriangleArbitrageStrategy.iter st conn a).1.active = true := by
          rw [arbIter_preserves_active]; exact h
        simp only [TriangleArbitrageStrategy.run, if_pos h]
        simp [ih _ _ hact]
  · intro h
    induction inputsS generalizing sm conn with
    | nil => rfl
    | cons a as ih =>
        have hact : (SMCStrategy.iter sm conn a).1.active = true := by
          rw [smcIter_preserves_active]; exact h
        simp only [SMCStrategy.run, if_pos h]
        simp [ih _ _ hact]

/-- Witness for C8: a concrete decision-logic fault — arbitrage
strategy active, cooldown long elapsed, healthy checks, decision body
raising — yields exactly the caught-exception-then-5s-backoff trace
with the strategy state unchanged, by the theorem. -/
theorem c8_loop_contains_iteration_faults_witness :
    TriangleArbitrageStrategy.iter (ArbState.start (ArbState.init {}))
      { connected := true, last_connection_attempt := 0, connection_interval := 60 }
      { now := 50, attempt := AttemptOutcome.success,
        sys := { cpu := 10, memory_percent := 10, latency := some 10 },
        decisionRaises := true, tAfter := 60 }
      = (ArbState.start (ArbState.init {}),
          { connected := true, last_connection_attempt := 0, connection_interval := 60 },
          [Event.healthProbe, Event.decisionInvoked, Event.exceptionCaught,
            Event.sleepBackoff]) :=
  (c8_loop_contains_iteration_faults (ArbState.start (ArbState.init {}))
    { connected := true, last_connection_attempt := 0, connection_interval := 60 }
    { now := 50, attempt := AttemptOutcome.success,
      sys := { cpu := 10, memory_percent := 10, latency := some 10 },
      decisionRaises := true, tAfter := 60 }
    (SmcState.init {})
    { now := 0, attempt := AttemptOutcome.success,
      sys := { cpu := 10, memory_percent := 10, latency := some 10 },
      fetch := FetchOutcome.raisesEarly, decisionRaises := false }
    [] []).2.2.1 rfl (by decide) (by decide)

/-! ### Claim C9 -/

/-- C9: fault isolation across runtimes.  An arbitrage-loop iteration —
including every faulting one — never writes the SMC runtime's state
(its `last_execution`/`last_update` timers, cache, config and active
flag all pass through), and an SMC iteration never writes the arbitrage
runtime's state; the only shared state either iteration can write is
the connection manager, and only through the health check's
`ensure_connection` (the serialized reconnect path): the resulting
manager is either untouched or exactly the `ensure_connection`
result. -/
theorem c9_strategy_fault_isolation (w : World) (i : ArbIterInput) (j : SmcIterInput) :
    ((w.arbStep i).1.smc = w.smc)
    ∧ ((w.smcStep j).1.arb = w.arb)
    ∧ ((w.arbStep i).1.conn = w.conn
        ∨ (w.arbStep i).1.conn = (w.conn.ensure_connection i.now i.attempt).st)
    ∧ ((w.smcStep j).1.conn = (w.conn.ensure_connection j.now j.attempt).st) := by
  refine ⟨rfl, rfl, ?_, ?_⟩
  · unfold World.arbStep TriangleArbitrageStrategy.iter
    by_cases h : i.now - w.arb.last_trade_time < w.arb.cooldown
    · left
      simp [h]
    · right
      by_cases h1 : (health_check w.conn i.now i.attempt i.sys).1 = false
      · simp [h, h1, health_check_snd]
      · by_cases h2 : i.decisionRaises = true <;>
          simp [h, h1, h2, health_check_snd]
  · unfold World.smcStep SMCStrategy.iter
    by_cases h1 : (health_check w.conn j.now j.attempt j.sys).1 = false
    · simp [h1, health_check_snd]
    · cases hgo : (SMCStrategy.get_cached_data w.smc j.now false j.fetch).ret with
      | error a => simp [h1, hgo, health_check_snd]
      | ok df => by_cases h2 : j.decisionRaises = true <;>
          simp [h1, hgo, h2, health_check_snd]

/-! ### Claim C10 -/

/-- C10: when every fetch so far has failed (the cache is still `None`)
and the next fetch fails before assigning the cache, `get_cached_data`
does not return `None` — it raises (the final `self.data_cache.copy()`
is an attribute access on `None`), so the exception reaches the loop
handler; every normal return carries exactly the frame held in the
post-state cache (a copy of possibly stale data, available only once a
fetch has populated the cache); consequently the `if df is None` branch
of `SMCStrategy.execute` is never taken in any iteration. -/
theorem c10_get_cached_data_never_returns_none (st : SmcState) (now : Nat) (force : Bool)
    (f : FetchOutcome) (df : DataFrame) (conn : MT5ConnectionManager) (j : SmcIterInput) :
    (st.data_cache = none →
      (SMCStrategy.get_cached_data st now force FetchOutcome.raisesEarly).ret
        = Except.error ())
    ∧ ((SMCStrategy.get_cached_data st now force f).ret = Except.ok df →
      (SMCStrategy.get_cached_data st now force f).st.data_cache = some df)
    ∧ Event.dfNoneGuard ∉ (SMCStrategy.iter st conn j).2.2 := by
  refine ⟨?_, ?_, ?_⟩
  · intro hcache
    unfold SMCStrategy.get_cached_data
    rw [if_pos (Or.inr (Or.inl hcache))]
    simp [hcache]
  · intro hok
    unfold SMCStrategy.get_cached_data at hok ⊢
    by_cases h : (force = true ∨ st.data_cache = none ∨ 30 < now - st.last_update)
    · rw [if_pos h] at hok ⊢
      cases f with
      | ok d =>
          simp at hok ⊢
          simpa using hok
      | raisesEarly =>
          cases hc : st.data_cache with
          | none => simp [hc] at hok
          | some d =>
              simp [hc] at hok ⊢
              exact hok
      | raisesLate d =>
          simp at hok ⊢
          simpa using hok
    · rw [if_neg h] at hok ⊢
      cases hc : st.data_cache with
      | none => simp [hc] at hok
      | some d =>
          simp [hc] at hok ⊢
          exact hok
  · unfold SMCStrategy.iter
    by_cases h1 : (health_check conn j.now j.attempt j.sys).1 = false
    · simp [h1]
    · cases hgo : (SMCStrategy.get_cached_data st j.now false j.fetch).ret with
      | error a => simp [h1, hgo]
      | ok d => by_cases h2 : j.decisionRaises = true <;> simp [h1, hgo, h2]

/-- Witness for C10: from the freshly constructed SMC state (cache
`None`), a failing fetch makes `get_cached_data` raise; and a
successful fetch of frame 3 returns with the cache holding exactly
frame 3. -/
theorem c10_get_cached_data_never_returns_none_witness :
    (SMCStrategy.get_cached_data (SmcState.init {}) 0 false
        FetchOutcome.raisesEarly).ret = Except.error ()
    ∧ (SMCStrategy.get_cached_data (SmcState.init {}) 5 false
        (FetchOutcome.ok { id := 3 })).st.data_cache = some { id := 3 } :=
  ⟨(c10_get_cached_data_never_returns_none (SmcState.init {}) 0 false
      FetchOutcome.raisesEarly { id := 0 } MT5ConnectionManager.initState
      { now := 0, attempt := AttemptOutcome.success,
        sys := { cpu := 10, memory_percent := 10, latency := some 10 },
        fetch := FetchOutcome.raisesEarly, decisionRaises := false }).1 rfl,
    (c10_get_cached_data_never_returns_none (SmcState.init {}) 5 false
      (FetchOutcome.ok { id := 3 }) { id := 3 } MT5ConnectionManager.initState
      { now := 0, attempt := AttemptOutcome.success,
        sys := { cpu := 10, memory_percent := 10, latency := some 10 },
        fetch := FetchOutcome.raisesEarly, decisionRaises := false }).2.1 (by decide)⟩

end DiabloTrades
